import Mathlib

/-!
Verification development for the scheduled-publication engine of the
ai-social-media-platform repository.

The embedding covers the in-memory scheduling routes
(`backend/routes/schedule.js`, duplicated in the mock route file that
defines the `scheduledPosts` array), the multi-platform publish handler
(`backend/routes/social.js`), and the `Post` mongoose schema
(`backend/models/Post.js`).

Modelling conventions:
* JS `Date` values are modelled as ISO-8601 style strings
  (`YYYY-MM-DDTHH:MM`); for such zero-padded strings, the JS `Date`
  order coincides with lexicographic order on characters, which is
  implemented below as `chronoLe`.
* The mutable `scheduledPosts` array is threaded explicitly as a
  `List SchedPost`; every route handler is a pure function from the
  store (plus request data and the current instant) to an HTTP-level
  outcome and the new store.
* `mongoose` document saves inside the social publish loop may fail
  (the JS wraps each in try/catch); the outcome of the save attempt for
  the k-th platform is abstracted as a boolean oracle `saveOk k`.
-/

/-- Lexicographic comparison of character lists by code point.  This is
the order JS applies to `Date` values once dates are rendered as
zero-padded ISO strings. -/
def charListLe : List Char → List Char → Bool
  | [], _ => true
  | _ :: _, [] => false
  | a :: as, b :: bs =>
    if a.toNat < b.toNat then true
    else if b.toNat < a.toNat then false
    else charListLe as bs

/-- Model of the JS comparison `new Date(a) <= new Date(b)` for
zero-padded ISO date-time strings. -/
def chronoLe (a b : String) : Bool := charListLe a.toList b.toList

/-- Model of the JS template literal interpolation of scheduledDate and
scheduledTime into one ISO date-time string, as in
`new Date(scheduledDate + T + scheduledTime)` (schedule.js line 100). -/
def dateTime (d t : String) : String := d ++ "T" ++ t

/-- One element of the in-memory `scheduledPosts` array
(schedule.js / the mock schedule route). -/
structure SchedPost where
  id : Nat
  userId : Nat
  content : String
  platform : String
  scheduledDate : String
  scheduledTime : String
  status : String
  mediaUrls : List String
  tags : List String
  createdAt : String
  updatedAt : String
  publishedAt : Option String
deriving Repr, DecidableEq

/-- The scheduled instant of a post, as the JS code rebuilds it from
the two stored fields. -/
def SchedPost.schedAt (p : SchedPost) : String :=
  dateTime p.scheduledDate p.scheduledTime

/-- The platform whitelist of the route validators:
`isIn(["twitter", "linkedin", "instagram"])` — schedule.js line 83 and
social.js line 37.  Note that facebook is absent. -/
def platformWhitelist : List String := ["twitter", "linkedin", "instagram"]

/-- The `status` enum of the `Post` mongoose schema
(models/Post.js lines 38-42). -/
def postStatusEnum : List String := ["draft", "scheduled", "published", "failed"]

/-- The `platforms` enum of the `Post` mongoose schema
(models/Post.js lines 14-18). -/
def postPlatformEnum : List String := ["twitter", "linkedin", "instagram", "facebook"]

/-- Hour part of the validator regex
`^([0-1]?[0-9]|2[0-3]):[0-5][0-9]$` (schedule.js line 85). -/
def hourOK : List Char → Bool
  | [c] => c.isDigit
  | [c1, c2] =>
    ((c1 = '0' || c1 = '1') && c2.isDigit) || (c1 = '2' && ('0' ≤ c2 && c2 ≤ '3'))
  | _ => false

/-- Minute part of the validator regex: `[0-5][0-9]`. -/
def minuteOK : List Char → Bool
  | [m1, m2] => ('0' ≤ m1 && m1 ≤ '5') && m2.isDigit
  | _ => false

/-- Split a character list at every occurrence of a separator. -/
def splitOnChar (sep : Char) : List Char → List (List Char)
  | [] => [[]]
  | c :: rest =>
    match splitOnChar sep rest with
    | [] => if c = sep then [[], []] else [[c]]
    | h :: t => if c = sep then [] :: h :: t else (c :: h) :: t

/-- The `scheduledTime` validator `matches(^([0-1]?[0-9]|2[0-3]):[0-5][0-9]$)`
from schedule.js line 85. -/
def timeRegexOK (t : String) : Bool :=
  match splitOnChar ':' t.toList with
  | [h, m] => hourOK h && minuteOK m
  | _ => false

/-- Models the express-validator `isISO8601()` check on `scheduledDate`
(schedule.js line 84), restricted to the zero-padded `YYYY-MM-DD`
calendar-date form, which is the only form the rest of the code
exchanges with it (the cron sweep compares against
`toISOString().split(T)[0]`). -/
def isoDateOK (d : String) : Bool :=
  match d.toList with
  | [y1, y2, y3, y4, '-', m1, m2, '-', d1, d2] =>
    y1.isDigit && y2.isDigit && y3.isDigit && y4.isDigit &&
    m1.isDigit && m2.isDigit && d1.isDigit && d2.isDigit &&
    (let mo := (m1.toNat - 48) * 10 + (m2.toNat - 48)
     let da := (d1.toNat - 48) * 10 + (d2.toNat - 48)
     (1 ≤ mo && mo ≤ 12) && (1 ≤ da && da ≤ 31))
  | _ => false

/-- Request body of `POST /schedule/posts` (schedule.js lines 81-137). -/
structure CreateReq where
  content : String
  platform : String
  scheduledDate : String
  scheduledTime : String
  mediaUrls : Option (List String)
  tags : Option (List String)
deriving Repr, DecidableEq

/-- The express-validator chain of `POST /schedule/posts`
(schedule.js lines 82-85): non-empty content, whitelisted platform,
ISO date, `HH:MM` time. -/
def validateCreate (r : CreateReq) : Bool :=
  !(r.content == "") && platformWhitelist.contains r.platform &&
    isoDateOK r.scheduledDate && timeRegexOK r.scheduledTime

/-- HTTP-level outcomes of the schedule route handlers. -/
inductive RouteOutcome where
  /-- express-validator reported errors (HTTP 400). -/
  | validationErrors
  /-- the explicit `must be in the future` rejection (HTTP 400). -/
  | pastSchedule
  /-- `findIndex` returned -1 (HTTP 404). -/
  | notFound
  /-- the `Cannot update/delete published post` rejection (HTTP 400). -/
  | cannotModifyPublished
  /-- the `Post is not in scheduled status` rejection (HTTP 400). -/
  | notScheduled
  /-- creation succeeded (HTTP 201) with the new post. -/
  | created (post : SchedPost)
  /-- mutation succeeded (HTTP 200), carrying the updated post if any. -/
  | ok (post : Option SchedPost)
deriving Repr, DecidableEq

/-- The HTTP status code each outcome is sent with. -/
def RouteOutcome.httpStatus : RouteOutcome → Nat
  | .validationErrors => 400
  | .pastSchedule => 400
  | .notFound => 404
  | .cannotModifyPublished => 400
  | .notScheduled => 400
  | .created _ => 201
  | .ok _ => 200

/-- Handler of `POST /schedule/posts` (schedule.js lines 86-137): run the
validators, reject a scheduled instant not strictly in the future, then
push a new post with `id := scheduledPosts.length + 1` and status
`scheduled`. -/
def createScheduled (store : List SchedPost) (uid : Nat) (r : CreateReq)
    (now : String) : RouteOutcome × List SchedPost :=
  if !validateCreate r then (.validationErrors, store)
  else if chronoLe (dateTime r.scheduledDate r.scheduledTime) now then
    (.pastSchedule, store)
  else
    let newPost : SchedPost :=
      { id := store.length + 1
        userId := uid
        content := r.content
        platform := r.platform
        scheduledDate := r.scheduledDate
        scheduledTime := r.scheduledTime
        status := "scheduled"
        mediaUrls := r.mediaUrls.getD []
        tags := r.tags.getD []
        createdAt := now
        updatedAt := now
        publishedAt := none }
    (.created newPost, store ++ [newPost])

/-- Request body of `PUT /schedule/posts/:id`; every field optional
(schedule.js lines 142-146). -/
structure UpdateReq where
  content : Option String
  platform : Option String
  scheduledDate : Option String
  scheduledTime : Option String
  mediaUrls : Option (List String)
  tags : Option (List String)
deriving Repr, DecidableEq

/-- An `optional()` express-validator check: absent fields pass, present
fields are tested. -/
def optCheck (o : Option String) (f : String → Bool) : Bool :=
  match o with
  | none => true
  | some s => f s

/-- The express-validator chain of `PUT /schedule/posts/:id`
(schedule.js lines 143-146). -/
def validateUpdate (r : UpdateReq) : Bool :=
  optCheck r.content (fun c => !(c == "")) &&
  optCheck r.platform (fun p => platformWhitelist.contains p) &&
  optCheck r.scheduledDate isoDateOK &&
  optCheck r.scheduledTime timeRegexOK

/-- JS truthiness of an optional string field (`if (content) ...`):
present and non-empty. -/
def strTruthy (o : Option String) : Bool :=
  match o with
  | none => false
  | some s => !(s == "")

/-- The field-by-field patch of the update handler
(schedule.js lines 190-197): string fields are overwritten only when
truthy, array fields whenever present, and `updatedAt` is bumped. -/
def applyPatch (r : UpdateReq) (now : String) (p : SchedPost) : SchedPost :=
  { p with
    content := if strTruthy r.content then r.content.getD p.content else p.content
    platform := if strTruthy r.platform then r.platform.getD p.platform else p.platform
    scheduledDate :=
      if strTruthy r.scheduledDate then r.scheduledDate.getD p.scheduledDate
      else p.scheduledDate
    scheduledTime :=
      if strTruthy r.scheduledTime then r.scheduledTime.getD p.scheduledTime
      else p.scheduledTime
    mediaUrls := r.mediaUrls.getD p.mediaUrls
    tags := r.tags.getD p.tags
    updatedAt := now }

/-- The JS lookup
`scheduledPosts.findIndex(p => p.id === postId && p.userId === req.userId)`,
returning the first matching post together with the posts before and
after it, so handlers can rebuild the array. -/
def findPost (store : List SchedPost) (postId uid : Nat) :
    Option (List SchedPost × SchedPost × List SchedPost) :=
  match store with
  | [] => none
  | p :: rest =>
    if p.id == postId && p.userId == uid then some ([], p, rest)
    else
      match findPost rest postId uid with
      | none => none
      | some (pre, q, suf) => some (p :: pre, q, suf)

/-- Handler of `PUT /schedule/posts/:id` (schedule.js lines 147-212):
validators, owner-scoped `findIndex`, the `published` guard, the
future-date guard when both date and time are supplied, then the patch. -/
def updatePost (store : List SchedPost) (uid postId : Nat) (r : UpdateReq)
    (now : String) : RouteOutcome × List SchedPost :=
  if !validateUpdate r then (.validationErrors, store)
  else
    match findPost store postId uid with
    | none => (.notFound, store)
    | some (pre, p, suf) =>
      if p.status == "published" then (.cannotModifyPublished, store)
      else if strTruthy r.scheduledDate && strTruthy r.scheduledTime &&
          chronoLe (dateTime (r.scheduledDate.getD "") (r.scheduledTime.getD "")) now then
        (.pastSchedule, store)
      else
        let p1 := applyPatch r now p
        (.ok (some p1), pre ++ p1 :: suf)

/-- Handler of `DELETE /schedule/posts/:id` (schedule.js lines 217-251):
owner-scoped `findIndex`, the `published` guard, then `splice`. -/
def deletePost (store : List SchedPost) (uid postId : Nat) :
    RouteOutcome × List SchedPost :=
  match findPost store postId uid with
  | none => (.notFound, store)
  | some (pre, p, suf) =>
    if p.status == "published" then (.cannotModifyPublished, store)
    else (.ok none, pre ++ suf)

/-- Handler of `POST /schedule/posts/:id/publish-now`
(schedule.js lines 339-376): owner-scoped `findIndex`, the
`not in scheduled status` guard, then a direct write of
status := published. -/
def publishNow (store : List SchedPost) (uid postId : Nat) (now : String) :
    RouteOutcome × List SchedPost :=
  match findPost store postId uid with
  | none => (.notFound, store)
  | some (pre, p, suf) =>
    if !(p.status == "scheduled") then (.notScheduled, store)
    else
      let p1 := { p with status := "published", publishedAt := some now, updatedAt := now }
      (.ok (some p1), pre ++ p1 :: suf)

/-- The per-minute cron sweep (schedule.js lines 379-400): for every
stored post, publish it exactly when its status is `scheduled` AND its
`scheduledDate` string equals the current date string AND its
`scheduledTime` string equals the current `HH:MM` string.  `nowDate`
and `nowTime` are the date and time components the JS derives from
`now`, and `nowStamp` the full instant written into the timestamps. -/
def cronTick (store : List SchedPost) (nowDate nowTime nowStamp : String) :
    List SchedPost :=
  store.map (fun p =>
    if p.status == "scheduled" && p.scheduledDate == nowDate &&
        p.scheduledTime == nowTime then
      { p with status := "published", publishedAt := some nowStamp, updatedAt := nowStamp }
    else p)

/-- The due predicate of the specification: status `scheduled` and
scheduled instant less than or equal to the current instant. -/
def dueAt (p : SchedPost) (now : String) : Bool :=
  p.status == "scheduled" && chronoLe p.schedAt now

/-- The filter of `GET /schedule/upcoming` (the mock route, lines
354-360): owner-scoped, status `scheduled`, scheduled instant between
`now` and `horizon`, where the handler computes `horizon` as the
instant seven days after `now`. -/
def upcomingPred (uid : Nat) (now horizon : String) (p : SchedPost) : Bool :=
  p.userId == uid && p.status == "scheduled" &&
    chronoLe now p.schedAt && chronoLe p.schedAt horizon

/-- The ascending-by-scheduled-instant comparator of the upcoming
handler sort. -/
def postLe (a b : SchedPost) : Bool := chronoLe a.schedAt b.schedAt

/-- Handler of `GET /schedule/upcoming` (the mock route, lines 349-381):
filter, sort ascending by scheduled instant, keep the first 10. -/
def upcoming (store : List SchedPost) (uid : Nat) (now horizon : String) :
    List SchedPost :=
  (((store.filter (upcomingPred uid now horizon)).mergeSort postLe).take 10)

/-- One element of the `results` array of `POST /social/publish`
(social.js lines 52-104), restricted to the fields the loop always
sets. -/
structure PublishEntry where
  success : Bool
  platform : String
  error : Option String
deriving Repr, DecidableEq

/-- The document `new Post({...})` saved for one successful platform in
the publish loop (social.js lines 59-69): note the status is always the
literal `published`. -/
structure SavedPost where
  userId : Nat
  content : String
  platform : String
  mediaUrls : List String
  status : String
deriving Repr, DecidableEq

/-- The JSON body of the `POST /social/publish` response
(social.js lines 95-104). -/
structure PublishResponse where
  success : Bool
  results : List PublishEntry
  total : Nat
  successful : Nat
  failed : Nat
deriving Repr, DecidableEq

/-- The express-validator chain of `POST /social/publish`
(social.js lines 35-37): non-empty content and every platform in the
whitelist (`isArray()` is intrinsic to the `List` type here). -/
def validatePublish (content : String) (platforms : List String) : Bool :=
  !(content == "") && platforms.all (fun p => platformWhitelist.contains p)

/-- The result entry pushed for one platform: the success shape when the
save succeeded, the failure shape otherwise. -/
def publishEntryFor (pl : String) (okb : Bool) : PublishEntry :=
  if okb then { success := true, platform := pl, error := none }
  else { success := false, platform := pl, error := some ("Failed to publish to " ++ pl) }

/-- Outcome of `POST /social/publish`. -/
inductive PublishOutcome where
  | validationErrors
  | ok (resp : PublishResponse) (saved : List SavedPost)
deriving Repr, DecidableEq

/-- The `publishResults` array built by the publish loop: one entry per
requested platform, in request order. -/
def publishResults (platforms : List String) (saveOk : Nat → Bool) :
    List PublishEntry :=
  platforms.enum.map (fun ip => publishEntryFor ip.2 (saveOk ip.1))

/-- The Post documents persisted by the publish loop: one per platform
whose save succeeded, each with the hard-coded status published. -/
def publishSaved (uid : Nat) (content : String)
    (platforms mediaUrls : List String) (saveOk : Nat → Bool) : List SavedPost :=
  (platforms.enum.filter (fun ip => saveOk ip.1)).map
    (fun ip =>
      { userId := uid, content := content, platform := ip.2,
        mediaUrls := mediaUrls, status := "published" } : Nat × String → SavedPost)

/-- The response body of a successful `POST /social/publish`
(social.js lines 92-104): top-level success is `successCount > 0`. -/
def publishResponse (platforms : List String) (saveOk : Nat → Bool) :
    PublishResponse :=
  let results := publishResults platforms saveOk
  let successCount := (results.filter (fun e => e.success)).length
  { success := decide (successCount > 0)
    results := results
    total := results.length
    successful := successCount
    failed := results.length - successCount }

/-- Handler of `POST /social/publish` (social.js lines 38-104): iterate
the requested platforms in order, save a `published` Post per success,
push one result entry per platform, and report top-level success when
the success count is positive.  `saveOk k` abstracts whether the save
attempt of the k-th platform succeeds. -/
def publishHandler (uid : Nat) (content : String) (platforms : List String)
    (mediaUrls : List String) (saveOk : Nat → Bool) : PublishOutcome :=
  if !validatePublish content platforms then .validationErrors
  else
    .ok (publishResponse platforms saveOk)
      (publishSaved uid content platforms mediaUrls saveOk)

/-- One client-driven mutation of the scheduled-post store, for
reasoning about operation sequences. -/
inductive StoreOp where
  | create (uid : Nat) (r : CreateReq) (now : String)
  | del (uid postId : Nat)
deriving Repr

/-- Apply one operation to the store, keeping only the resulting store. -/
def applyOp (store : List SchedPost) : StoreOp → List SchedPost
  | .create uid r now => (createScheduled store uid r now).2
  | .del uid postId => (deletePost store uid postId).2

/-- Run a sequence of operations against the store. -/
def runOps (store : List SchedPost) (ops : List StoreOp) : List SchedPost :=
  ops.foldl applyOp store

theorem charListLe_total : ∀ a b, (charListLe a b || charListLe b a) = true := by
  intro a
  induction a with
  | nil => intro b; rfl
  | cons x xs ih =>
    intro b
    cases b with
    | nil => simp [charListLe]
    | cons y ys =>
      simp only [charListLe]
      rcases Nat.lt_trichotomy x.toNat y.toNat with h | h | h
      · simp [h]
      · have h1 : ¬ x.toNat < y.toNat := by omega
        have h2 : ¬ y.toNat < x.toNat := by omega
        have h3 := ih ys
        simp only [h1, h2, if_false]
        simpa using h3
      · simp [h, Nat.lt_asymm h]

theorem charListLe_trans :
    ∀ a b c, charListLe a b = true → charListLe b c = true → charListLe a c = true := by
  intro a
  induction a with
  | nil => intro b c _ _; rfl
  | cons x xs ih =>
    intro b c hab hbc
    cases b with
    | nil => simp [charListLe] at hab
    | cons y ys =>
      cases c with
      | nil => simp [charListLe] at hbc
      | cons z zs =>
        simp only [charListLe] at hab hbc ⊢
        split_ifs at hab hbc ⊢ <;>
          first
            | rfl
            | omega
            | exact hab
            | exact hbc
            | exact ih ys zs hab hbc

theorem postLe_total : ∀ a b, (postLe a b || postLe b a) = true := by
  intro a b
  exact charListLe_total a.schedAt.toList b.schedAt.toList

theorem postLe_trans :
    ∀ a b c, postLe a b = true → postLe b c = true → postLe a c = true := by
  intro a b c h1 h2
  exact charListLe_trans a.schedAt.toList b.schedAt.toList c.schedAt.toList h1 h2

theorem findPost_eq_none (store : List SchedPost) (postId uid : Nat)
    (h : ∀ p ∈ store, p.id = postId → p.userId ≠ uid) :
    findPost store postId uid = none := by
  induction store with
  | nil => rfl
  | cons p rest ih =>
    have hp := h p (by simp)
    have hmatch : (p.id == postId && p.userId == uid) = false := by
      by_cases hid : p.id = postId
      · have := hp hid
        simp [hid, this]
      · simp [hid]
    have hrest : findPost rest postId uid = none :=
      ih (fun q hq => h q (by simp [hq]))
    simp [findPost, hmatch, hrest]

/-- The direct status write both the publish-now handler and the cron
sweep perform on a post: status becomes `published`, `publishedAt` and
`updatedAt` are stamped. -/
def markPublished (p : SchedPost) (stamp : String) : SchedPost :=
  { p with status := "published", publishedAt := some stamp, updatedAt := stamp }

/-- A concrete post scheduled for 2025-09-27 at 09:00, used to exercise
the cron sweep. -/
def duePost : SchedPost :=
  { id := 1, userId := 1, content := "hi", platform := "twitter",
    scheduledDate := "2025-09-27", scheduledTime := "09:00",
    status := "scheduled", mediaUrls := [], tags := [],
    createdAt := "2025-09-26T10:00", updatedAt := "2025-09-26T10:00",
    publishedAt := none }

/-- C1: the claim says the sweep selects every stored item with status
scheduled and scheduled instant less than or equal to the current time,
so an item whose minute passed without an exactly matching tick is
published on the next tick.  The code instead matches the date and time
strings exactly: at the 09:01 tick, the post scheduled for 09:00 is due
(its instant is less than or equal to now) yet the sweep leaves the
whole store unchanged, still in status scheduled. -/
theorem c1_due_item_missed_by_exact_match_sweep :
    dueAt duePost "2025-09-27T09:01" = true ∧
    cronTick [duePost] "2025-09-27" "09:01" "2025-09-27T09:01" = [duePost] ∧
    (cronTick [duePost] "2025-09-27" "09:01" "2025-09-27T09:01").map
      (fun p => p.status) = ["scheduled"] := by
  refine ⟨by decide, by decide, by decide⟩

/-- C2: the claim says every terminal status write is strictly preceded
by a claim transition from scheduled to publishing.  The code moves the
item directly from scheduled to published, both in the publish-now
handler and in the cron sweep, in one write; the status value
publishing does not even exist in the Post schema enum. -/
theorem c2_terminal_write_without_publishing_claim :
    publishNow [duePost] 1 1 "2025-09-27T08:00" =
      (.ok (some (markPublished duePost "2025-09-27T08:00")),
       [markPublished duePost "2025-09-27T08:00"]) ∧
    cronTick [duePost] "2025-09-27" "09:00" "2025-09-27T09:00" =
      [markPublished duePost "2025-09-27T09:00"] ∧
    postStatusEnum.contains "publishing" = false := by
  refine ⟨by decide, by decide, by decide⟩

/-- C3: the claim says a completed multi-target publish leaves one
per-target result per requested target and an aggregate status that is
published, failed, or partially_published according to the per-target
outcomes, with partially_published representable.  The code keeps one
result entry per platform, but persists a separate Post per successful
platform, each with the hard-coded status published, and the Post
schema status enum contains neither partially_published nor publishing,
so a mixed outcome (twitter succeeds, linkedin fails below) produces no
item in a partially_published state. -/
theorem c3_partial_publish_status_unrepresentable :
    postStatusEnum.contains "partially_published" = false ∧
    postStatusEnum.contains "publishing" = false ∧
    publishHandler 1 "hello" ["twitter", "linkedin"] [] (fun i => i == 0) =
      .ok
        { success := true
          results :=
            [{ success := true, platform := "twitter", error := none },
             { success := false, platform := "linkedin",
               error := some "Failed to publish to linkedin" }]
          total := 2, successful := 1, failed := 1 }
        [{ userId := 1, content := "hello", platform := "twitter",
           mediaUrls := [], status := "published" }] := by
  refine ⟨by decide, by decide, by decide⟩

/-- C6: the claim says every platform of the fixed enumeration
{twitter, linkedin, instagram, facebook} is accepted at creation, in
particular facebook.  The Post schema enum does contain facebook, but
the route validator whitelist omits it, so an otherwise valid creation
request targeting facebook is rejected with validation errors and
nothing is persisted, while the same request targeting twitter is
accepted with HTTP 201. -/
theorem c6_facebook_creation_rejected :
    postPlatformEnum.contains "facebook" = true ∧
    platformWhitelist.contains "facebook" = false ∧
    createScheduled [] 1
      { content := "hello", platform := "facebook",
        scheduledDate := "2030-01-01", scheduledTime := "10:00",
        mediaUrls := none, tags := none } "2025-01-01T00:00" =
      (.validationErrors, []) ∧
    (createScheduled [] 1
      { content := "hello", platform := "twitter",
        scheduledDate := "2030-01-01", scheduledTime := "10:00",
        mediaUrls := none, tags := none } "2025-01-01T00:00").1.httpStatus = 201 := by
  refine ⟨by decide, by decide, by decide, by decide⟩

/-- A valid creation request used in the identifier-collision run. -/
def mkReq (c : String) : CreateReq :=
  { content := c, platform := "twitter", scheduledDate := "2030-01-01",
    scheduledTime := "10:00", mediaUrls := none, tags := none }

/-- The store after create, create, delete-first, create: ids are
assigned as `store.length + 1`, so the third create reuses id 2. -/
def idCollisionRun : List SchedPost :=
  runOps []
    [.create 1 (mkReq "a") "2025-01-01T00:00",
     .create 1 (mkReq "b") "2025-01-01T00:00",
     .del 1 1,
     .create 1 (mkReq "c") "2025-01-01T00:00"]

/-- C7: the claim says identifiers stay unique under any sequence of
creations and deletions.  Identifiers are assigned as
`scheduledPosts.length + 1`, so after create, create, delete the first,
create, the store holds two distinct posts both with identifier 2. -/
theorem c7_duplicate_id_after_delete :
    idCollisionRun.map (fun p => p.id) = [2, 2] ∧
    decide (idCollisionRun.map (fun p => p.id)).Nodup = false ∧
    idCollisionRun.map (fun p => p.content) = ["b", "c"] := by
  refine ⟨by decide, by decide, by decide⟩

/-- C4: whenever the scheduled date-time of a creation request is less
than or equal to the current time, `POST /schedule/posts` answers with
HTTP 400 and the store of scheduled posts is unchanged — either the
validators already failed (400) or the explicit future-date guard
rejects the request before anything is pushed. -/
theorem c4_past_schedule_create_rejected (store : List SchedPost) (uid : Nat)
    (r : CreateReq) (now : String)
    (h : chronoLe (dateTime r.scheduledDate r.scheduledTime) now = true) :
    (createScheduled store uid r now).1.httpStatus = 400 ∧
    (createScheduled store uid r now).2 = store := by
  rcases Bool.eq_false_or_eq_true (validateCreate r) with hv | hv <;>
    simp [createScheduled, hv, h, RouteOutcome.httpStatus]

/-- A creation request whose scheduled instant lies in the past. -/
def pastReq : CreateReq :=
  { content := "x", platform := "twitter", scheduledDate := "2020-01-01",
    scheduledTime := "10:00", mediaUrls := none, tags := none }

/-- Witness for C4 at a concrete past-dated request. -/
theorem c4_witness :
    chronoLe (dateTime pastReq.scheduledDate pastReq.scheduledTime)
      "2025-01-01T00:00" = true ∧
    ((createScheduled [] 1 pastReq "2025-01-01T00:00").1.httpStatus = 400 ∧
     (createScheduled [] 1 pastReq "2025-01-01T00:00").2 = []) :=
  ⟨by decide, c4_past_schedule_create_rejected [] 1 pastReq "2025-01-01T00:00" (by decide)⟩

/-- A stored post in status failed, to probe the update and delete
guards. -/
def failedPost : SchedPost :=
  { id := 1, userId := 1, content := "old", platform := "twitter",
    scheduledDate := "2030-01-01", scheduledTime := "10:00",
    status := "failed", mediaUrls := [], tags := [],
    createdAt := "2025-01-01T00:00", updatedAt := "2025-01-01T00:00",
    publishedAt := none }

/-- A well-formed patch that only replaces the content. -/
def contentPatch : UpdateReq :=
  { content := some "new", platform := none, scheduledDate := none,
    scheduledTime := none, mediaUrls := none, tags := none }

/-- The post `failedPost` after the owner patch goes through. -/
def failedPostPatched : SchedPost :=
  { failedPost with content := "new", updatedAt := "2025-06-01T00:00" }

/-- Counterexample to C5: the guards of the update and delete handlers
check only for status published, so a stored item in the non-scheduled
status failed is updated (HTTP 200, content overwritten) and deleted
(HTTP 200, removed) instead of being rejected with HTTP 400. -/
theorem c5_counterexample_failed_item_mutated :
    failedPost.status = "failed" ∧
    updatePost [failedPost] 1 1 contentPatch "2025-06-01T00:00" =
      (.ok (some failedPostPatched), [failedPostPatched]) ∧
    deletePost [failedPost] 1 1 = (.ok none, []) := by
  refine ⟨by decide, by decide, by decide⟩

/-- C5 (amended): update and delete by the owner are rejected with
HTTP 400 and the store is left unchanged exactly for items whose status
is published — that is the only status the guards test for. -/
theorem c5_published_item_update_delete_rejected
    (store : List SchedPost) (uid pid : Nat) (r : UpdateReq) (now : String)
    (pre suf : List SchedPost) (p : SchedPost)
    (hfind : findPost store pid uid = some (pre, p, suf))
    (hpub : p.status = "published") :
    ((updatePost store uid pid r now).1.httpStatus = 400 ∧
     (updatePost store uid pid r now).2 = store) ∧
    deletePost store uid pid = (.cannotModifyPublished, store) := by
  constructor
  · rcases Bool.eq_false_or_eq_true (validateUpdate r) with hv | hv <;>
      simp [updatePost, hv, hfind, hpub, RouteOutcome.httpStatus]
  · simp [deletePost, hfind, hpub]

/-- A stored post that has already been published. -/
def publishedPost : SchedPost :=
  { id := 1, userId := 1, content := "old", platform := "twitter",
    scheduledDate := "2030-01-01", scheduledTime := "10:00",
    status := "published", mediaUrls := [], tags := [],
    createdAt := "2025-01-01T00:00", updatedAt := "2025-01-01T00:00",
    publishedAt := some "2025-01-01T00:00" }

/-- Witness for the amended C5 at a concrete published item. -/
theorem c5_witness :
    ((updatePost [publishedPost] 1 1 contentPatch "2025-06-01T00:00").1.httpStatus = 400 ∧
     (updatePost [publishedPost] 1 1 contentPatch "2025-06-01T00:00").2 = [publishedPost]) ∧
    deletePost [publishedPost] 1 1 = (.cannotModifyPublished, [publishedPost]) :=
  c5_published_item_update_delete_rejected [publishedPost] 1 1 contentPatch
    "2025-06-01T00:00" [] [] publishedPost (by decide) (by decide)

/-- A scheduled post owned by user 1, target of the cross-owner
requests below. -/
def ownedPost : SchedPost :=
  { id := 1, userId := 1, content := "s", platform := "twitter",
    scheduledDate := "2030-01-01", scheduledTime := "10:00",
    status := "scheduled", mediaUrls := [], tags := [],
    createdAt := "2025-01-01T00:00", updatedAt := "2025-01-01T00:00",
    publishedAt := none }

/-- A patch that fails validation: content present but empty. -/
def emptyContentPatch : UpdateReq :=
  { content := some "", platform := none, scheduledDate := none,
    scheduledTime := none, mediaUrls := none, tags := none }

/-- Counterexample to C9: the update handler runs its validators before
the owner-scoped lookup, so a request by user 2 against the item of
user 1 whose body fails validation receives HTTP 400 (validation
errors), not the HTTP 404 the claim promises for every such request. -/
theorem c9_counterexample_update_gets_400_not_404 :
    ownedPost.userId = 1 ∧
    updatePost [ownedPost] 2 1 emptyContentPatch "2025-01-01T00:00" =
      (.validationErrors, [ownedPost]) ∧
    RouteOutcome.validationErrors.httpStatus = 400 := by
  refine ⟨by decide, by decide, by decide⟩

/-- C9 (amended): for requests whose body passes validation, any
update, delete, or publish-now by a user other than the owner answers
HTTP 404 — the owner-scoped `findIndex` cannot match — and the store is
untouched; there is no 403 path in the code.  Malformed update bodies
are answered 400 by the validators, which never consult the store. -/
theorem c9_cross_owner_not_found
    (store : List SchedPost) (a b pid : Nat) (r : UpdateReq) (now : String)
    (_hmem : ∃ p ∈ store, p.id = pid ∧ p.userId = a)
    (huniq : ∀ p ∈ store, p.id = pid → p.userId = a)
    (hab : b ≠ a)
    (hr : validateUpdate r = true) :
    updatePost store b pid r now = (.notFound, store) ∧
    deletePost store b pid = (.notFound, store) ∧
    publishNow store b pid now = (.notFound, store) := by
  have hnone : findPost store pid b = none :=
    findPost_eq_none store pid b (fun p hp hid hb =>
      hab (hb.symm.trans (huniq p hp hid)))
  refine ⟨?_, ?_, ?_⟩ <;> simp [updatePost, deletePost, publishNow, hr, hnone]

/-- Witness for the amended C9: user 2 against the item of user 1. -/
theorem c9_witness :
    updatePost [ownedPost] 2 1 contentPatch "2025-01-01T00:00" =
      (.notFound, [ownedPost]) ∧
    deletePost [ownedPost] 2 1 = (.notFound, [ownedPost]) ∧
    publishNow [ownedPost] 2 1 "2025-01-01T00:00" = (.notFound, [ownedPost]) :=
  c9_cross_owner_not_found [ownedPost] 1 2 1 contentPatch "2025-01-01T00:00"
    (by decide) (by decide) (by decide) (by decide)

/-- C8: `GET /schedule/upcoming` returns only items of the requesting
owner with status scheduled whose scheduled instant lies between `now`
and the seven-day horizon, sorted ascending by scheduled instant, at
most 10 of them; and it returns every such item whenever at most 10
match (beyond 10, the cap keeps the 10 earliest of the sorted list). -/
theorem c8_upcoming_spec (store : List SchedPost) (uid : Nat)
    (now horizon : String) :
    (∀ p ∈ upcoming store uid now horizon,
      upcomingPred uid now horizon p = true) ∧
    List.Pairwise (fun a b => postLe a b = true)
      (upcoming store uid now horizon) ∧
    (upcoming store uid now horizon).length ≤ 10 ∧
    ((store.filter (upcomingPred uid now horizon)).length ≤ 10 →
      ∀ p ∈ store, upcomingPred uid now horizon p = true →
        p ∈ upcoming store uid now horizon) := by
  refine ⟨?_, ?_, ?_, ?_⟩
  · intro p hp
    have h1 : p ∈ (store.filter (upcomingPred uid now horizon)).mergeSort postLe :=
      List.mem_of_mem_take hp
    exact (List.mem_filter.mp (List.mem_mergeSort.mp h1)).2
  · exact List.Pairwise.sublist (List.take_sublist _ _)
      (List.sorted_mergeSort postLe_trans postLe_total _)
  · simp only [upcoming]
    rw [List.length_take]
    exact min_le_left _ _
  · intro hlen p hp hpred
    have hf : p ∈ store.filter (upcomingPred uid now horizon) :=
      List.mem_filter.mpr ⟨hp, hpred⟩
    have hm : p ∈ (store.filter (upcomingPred uid now horizon)).mergeSort postLe :=
      List.mem_mergeSort.mpr hf
    have hlen2 :
        ((store.filter (upcomingPred uid now horizon)).mergeSort postLe).length ≤ 10 := by
      rw [(List.mergeSort_perm _ _).length_eq]
      exact hlen
    simp only [upcoming]
    rw [List.take_of_length_le hlen2]
    exact hm

/-- Witness for C8 at a concrete one-post store. -/
theorem c8_witness :
    (∀ p ∈ upcoming [duePost] 1 "2025-09-27T00:00" "2025-10-04T00:00",
      upcomingPred 1 "2025-09-27T00:00" "2025-10-04T00:00" p = true) ∧
    List.Pairwise (fun a b => postLe a b = true)
      (upcoming [duePost] 1 "2025-09-27T00:00" "2025-10-04T00:00") ∧
    (upcoming [duePost] 1 "2025-09-27T00:00" "2025-10-04T00:00").length ≤ 10 ∧
    (([duePost].filter (upcomingPred 1 "2025-09-27T00:00" "2025-10-04T00:00")).length ≤ 10 →
      ∀ p ∈ [duePost],
        upcomingPred 1 "2025-09-27T00:00" "2025-10-04T00:00" p = true →
          p ∈ upcoming [duePost] 1 "2025-09-27T00:00" "2025-10-04T00:00") :=
  c8_upcoming_spec [duePost] 1 "2025-09-27T00:00" "2025-10-04T00:00"

/-- C10: for a request passing validation with a non-empty platforms
array, `POST /social/publish` answers with a results array holding
exactly one entry per requested platform, in request order, and the
top-level success flag is true exactly when at least one per-platform
result succeeded. -/
theorem c10_publish_results_shape
    (uid : Nat) (content : String) (platforms mediaUrls : List String)
    (saveOk : Nat → Bool)
    (hvalid : validatePublish content platforms = true)
    (_hne : platforms ≠ []) :
    publishHandler uid content platforms mediaUrls saveOk =
      .ok (publishResponse platforms saveOk)
        (publishSaved uid content platforms mediaUrls saveOk) ∧
    (publishResponse platforms saveOk).results.map (fun e => e.platform) =
      platforms ∧
    ((publishResponse platforms saveOk).success = true ↔
      ∃ e ∈ (publishResponse platforms saveOk).results, e.success = true) := by
  refine ⟨?_, ?_, ?_⟩
  · simp [publishHandler, hvalid]
  · show (publishResults platforms saveOk).map (fun e => e.platform) = platforms
    unfold publishResults
    rw [List.map_map]
    rw [List.map_congr_left (g := Prod.snd) ?_]
    · exact List.enum_map_snd platforms
    · intro ip _
      rcases Bool.eq_false_or_eq_true (saveOk ip.1) with hb | hb <;>
        simp [publishEntryFor, hb]
  · show decide
        (0 < ((publishResults platforms saveOk).filter (fun e => e.success)).length) = true ↔
      ∃ e ∈ publishResults platforms saveOk, e.success = true
    rw [decide_eq_true_iff, List.length_pos_iff_exists_mem]
    constructor
    · rintro ⟨e, he⟩
      rcases List.mem_filter.mp he with ⟨h1, h2⟩
      exact ⟨e, h1, h2⟩
    · rintro ⟨e, h1, h2⟩
      exact ⟨e, List.mem_filter.mpr ⟨h1, h2⟩⟩

/-- Witness for C10 at a concrete two-platform request with a mixed
save outcome. -/
theorem c10_witness :
    publishHandler 1 "hi" ["twitter", "linkedin"] [] (fun i => i == 0) =
      .ok (publishResponse ["twitter", "linkedin"] (fun i => i == 0))
        (publishSaved 1 "hi" ["twitter", "linkedin"] [] (fun i => i == 0)) ∧
    (publishResponse ["twitter", "linkedin"] (fun i => i == 0)).results.map
      (fun e => e.platform) = ["twitter", "linkedin"] ∧
    ((publishResponse ["twitter", "linkedin"] (fun i => i == 0)).success = true ↔
      ∃ e ∈ (publishResponse ["twitter", "linkedin"] (fun i => i == 0)).results,
        e.success = true) :=
  c10_publish_results_shape 1 "hi" ["twitter", "linkedin"] [] (fun i => i == 0)
    (by decide) (by decide)
